import Mathlib

/-
Formal model of the multi-service OAuth authorization orchestrator implemented in
src/app/frontend/src/components/OAuthFlow.tsx (React function component `OAuthFlow`).

The component's state is four `useState` cells:
  serviceStatuses : ServiceStatus[]   (per-service id/name/status/error)
  currentServiceIndex : number        (the flow cursor)
  isComplete : boolean                (completion flag, separate state)
  isAuthorizing : boolean             (in-flight guard)
Each event handler is translated below as a pure function on an explicit state
record; the asynchronous parts (popup, message listener, 500 ms poll) are made
explicit as an `AttemptCtx` record carrying the closure-captured status array,
and a small-step relation `Step` over the whole component state.
-/

namespace OAuthFlowModel

/-- Per-service status union from OAuthFlow.tsx line 32:
`status: 'pending' | 'authorizing' | 'success' | 'error'`. -/
inductive Status where
  | pending
  | authorizing
  | success
  | error
deriving DecidableEq

/-- `interface ServiceStatus` from OAuthFlow.tsx lines 29-34. -/
structure ServiceStatus where
  id : String
  name : String
  status : Status
  error : Option String
deriving DecidableEq

/-- `API_URL` from OAuthFlow.tsx line 36: the fallback literal used when
`VITE_API_URL` is not set. -/
def API_URL : String := "https://ai-based-workforce-productivity-wel-livid.vercel.app/api"

/-- `SERVICE_OAUTH_URLS` record from OAuthFlow.tsx lines 38-45, as a lookup
returning `none` for ids with no configured endpoint (e.g. `cloudabis`). -/
def SERVICE_OAUTH_URLS (id : String) : Option String :=
  if id = "microsoft365" then some (API_URL ++ "/auth/microsoft/login")
  else if id = "slack" then some (API_URL ++ "/auth/slack/login")
  else if id = "google-sheets" then some (API_URL ++ "/auth/google/login")
  else if id = "jira" then some (API_URL ++ "/auth/jira/login")
  else if id = "asana" then some (API_URL ++ "/auth/asana/login")
  else if id = "github" then some (API_URL ++ "/auth/github/login")
  else none

/-- `SERVICE_NAMES` record from OAuthFlow.tsx lines 47-55. -/
def SERVICE_NAMES (id : String) : Option String :=
  if id = "microsoft365" then some "Microsoft 365"
  else if id = "slack" then some "Slack"
  else if id = "google-sheets" then some "Google Sheets"
  else if id = "jira" then some "Jira"
  else if id = "asana" then some "Asana"
  else if id = "github" then some "GitHub"
  else if id = "cloudabis" then some "CloudABIS"
  else none

/-- The four `useState` cells of the component (OAuthFlow.tsx lines 58-61). -/
structure FlowState where
  serviceStatuses : List ServiceStatus
  currentServiceIndex : Nat
  isComplete : Bool
  isAuthorizing : Bool
deriving DecidableEq

/-- JavaScript `Array.prototype.map` with the element index as second callback
argument, threading the running index `k`; `jsMapIdx f l = l.map((s, i) => f i s)`
is `mapWithIndex f 0 l`. -/
def mapWithIndex {α : Type} (f : Nat → α → α) : Nat → List α → List α
  | _, [] => []
  | k, s :: rest => f k s :: mapWithIndex f (k + 1) rest

/-- The single-index update pattern used by every status setter in the source:
`prev.map((s, i) => (i === index ? f(s) : s))`. -/
def updSvc (l : List ServiceStatus) (index : Nat) (f : ServiceStatus → ServiceStatus) :
    List ServiceStatus :=
  mapWithIndex (fun i s => if i = index then f s else s) 0 l

/-- Initial status array built by the first `useEffect` (OAuthFlow.tsx lines 63-71):
each selected id becomes `{ id, name: SERVICE_NAMES[id] || id, status: 'pending' }`. -/
def initStatuses (selectedServices : List String) : List ServiceStatus :=
  selectedServices.map (fun serviceId =>
    { id := serviceId
      name := (SERVICE_NAMES serviceId).getD serviceId
      status := Status.pending
      error := none })

/-- `handleServiceSuccess` (OAuthFlow.tsx lines 181-194): mark the entry at
`index` as success, then either advance the cursor or set the completion flag;
the delayed `setTimeout` body compares against the closure's
`serviceStatuses.length` (which the status update does not change), so the two
updates are modelled as one transition. -/
def handleServiceSuccess (f : FlowState) (index : Nat) : FlowState :=
  let statuses :=
    updSvc f.serviceStatuses index (fun s => { s with status := Status.success })
  if index + 1 < f.serviceStatuses.length then
    { f with serviceStatuses := statuses, currentServiceIndex := index + 1 }
  else
    { f with serviceStatuses := statuses, isComplete := true }

/-- `handleServiceError` (OAuthFlow.tsx lines 196-200): mark the entry at `index`
as `'error'` and store the message in its `error` field. -/
def handleServiceError (f : FlowState) (index : Nat) (msg : String) : FlowState :=
  { f with serviceStatuses :=
      (updSvc f.serviceStatuses index
        (fun s => { s with status := Status.error, error := some msg })) }

/-- `handleRetry` (OAuthFlow.tsx lines 202-208): unconditionally reset the entry
at `index` to pending with no error, clear the in-flight guard, and set the
cursor to `index`. -/
def handleRetry (f : FlowState) (index : Nat) : FlowState :=
  { f with
    serviceStatuses :=
      (updSvc f.serviceStatuses index
        (fun s => { s with status := Status.pending, error := none }))
    isAuthorizing := false
    currentServiceIndex := index }

/-- `handleSkip` (OAuthFlow.tsx lines 210-216): advance the cursor past `index`,
or set the completion flag when `index` is last; statuses are untouched. -/
def handleSkip (f : FlowState) (index : Nat) : FlowState :=
  if index + 1 < f.serviceStatuses.length then
    { f with currentServiceIndex := index + 1 }
  else
    { f with isComplete := true }

/-- `completedCount` (OAuthFlow.tsx line 222):
`serviceStatuses.filter((s) => s.status === 'success').length`. -/
def completedCount (l : List ServiceStatus) : Nat :=
  (l.filter (fun s => decide (s.status = Status.success))).length

/-- `progress` (OAuthFlow.tsx line 223): `(completedCount / serviceStatuses.length) * 100`,
modelled over the rationals. -/
def progress (f : FlowState) : ℚ :=
  ((completedCount f.serviceStatuses : ℚ) / (f.serviceStatuses.length : ℚ)) * 100

/-- Number of entries currently in status `'authorizing'`. -/
def countAuthorizing (l : List ServiceStatus) : Nat :=
  (l.filter (fun s => decide (s.status = Status.authorizing))).length

/-- Status of the entry at index `i`, if any. -/
def entryStatus (f : FlowState) (i : Nat) : Option Status :=
  (f.serviceStatuses.get? i).map (fun s => s.status)

/-- One in-flight popup attempt created by `handleAuthorize` (OAuthFlow.tsx
lines 127-178): the target `index` and service id, the `serviceStatuses` array
captured by the closure of the render that invoked `handleAuthorize` (used by
the `checkPopup` poll at line 172), and whether the message listener and the
500 ms interval are still registered. -/
structure AttemptCtx where
  index : Nat
  serviceId : String
  captured : List ServiceStatus
  listenerActive : Bool
  pollActive : Bool
deriving DecidableEq

/-- Whole-component state: the four `useState` cells plus the live popup
attempts, a count of popups opened, and a count of `onComplete()` invocations. -/
structure CompState where
  flow : FlowState
  attempts : List AttemptCtx
  popupsOpened : Nat
  onCompleteCalls : Nat
deriving DecidableEq

/-- A `window.postMessage` payload as read by `handleMessage` (OAuthFlow.tsx
lines 144-158): `event.data.type`, `event.data.service`, `event.data.error`. -/
structure MessageData where
  type : String
  service : String
  error : Option String
deriving DecidableEq

/-- The single-index update pattern on the attempts list (listener/poll teardown). -/
def updAttempt (l : List AttemptCtx) (k : Nat) (f : AttemptCtx → AttemptCtx) :
    List AttemptCtx :=
  mapWithIndex (fun i a => if i = k then f a else a) 0 l

/-- Component state after the initialization effect (OAuthFlow.tsx lines 63-71)
has run: statuses built from the selection, cursor 0, flags false, nothing live. -/
def initComp (selectedServices : List String) : CompState :=
  { flow :=
      { serviceStatuses := initStatuses selectedServices
        currentServiceIndex := 0
        isComplete := false
        isAuthorizing := false }
    attempts := []
    popupsOpened := 0
    onCompleteCalls := 0 }

/-- Guard of the auto-start effect (OAuthFlow.tsx line 75):
`serviceStatuses.length > 0 && currentServiceIndex < serviceStatuses.length && !isAuthorizing`. -/
def autoStartCond (f : FlowState) : Bool :=
  decide (0 < f.serviceStatuses.length) &&
    decide (f.currentServiceIndex < f.serviceStatuses.length) && !f.isAuthorizing

/-- Id of the entry at the cursor (`serviceStatuses[currentServiceIndex]`,
OAuthFlow.tsx line 76). -/
def currentId (f : FlowState) : Option String :=
  (f.serviceStatuses.get? f.currentServiceIndex).map (fun s => s.id)

/-- `handleAuthorize` (OAuthFlow.tsx lines 91-179): if the in-flight guard is
set, return unchanged (lines 95-98); otherwise set the guard, mark the entry
`'authorizing'`, then branch on the configured URL (lines 111-116), popup
blocking (lines 134-139; `popupBlocked` is the environment's answer), and on
success register the message listener and the `checkPopup` interval, whose
closure captures the pre-update `serviceStatuses` array. -/
def handleAuthorize (c : CompState) (index : Nat) (popupBlocked : Bool) : CompState :=
  if c.flow.isAuthorizing then c
  else
    match c.flow.serviceStatuses.get? index with
    | none => c
    | some service =>
      let f1 : FlowState :=
        { c.flow with
          isAuthorizing := true
          serviceStatuses :=
            (updSvc c.flow.serviceStatuses index
              (fun s => { s with status := Status.authorizing })) }
      match SERVICE_OAUTH_URLS service.id with
      | none =>
        { c with flow :=
            { handleServiceError f1 index "OAuth URL not configured" with
              isAuthorizing := false } }
      | some _ =>
        if popupBlocked then
          { c with flow :=
              { handleServiceError f1 index
                  "Popup was blocked. Please allow popups for this site." with
                isAuthorizing := false } }
        else
          { c with
            flow := f1
            attempts :=
              (c.attempts ++
                [{ index := index
                   serviceId := service.id
                   captured := c.flow.serviceStatuses
                   listenerActive := true
                   pollActive := true }])
            popupsOpened := c.popupsOpened + 1 }

/-- `handleMessage` of the attempt at position `k` receiving `data`
(OAuthFlow.tsx lines 144-158): a matching `'oauth_success'` unregisters the
listener, clears the guard and calls `handleServiceSuccess`; a matching
`'oauth_error'` does the same with `handleServiceError` and
`event.data.error || 'Authorization failed'`; anything else changes nothing. -/
def dispatchMessage (c : CompState) (k : Nat) (data : MessageData) : CompState :=
  match c.attempts.get? k with
  | none => c
  | some a =>
    if a.listenerActive then
      if data.type = "oauth_success" ∧ data.service = a.serviceId then
        let c1 : CompState :=
          { c with
            attempts := (updAttempt c.attempts k (fun x => { x with listenerActive := false }))
            flow := { c.flow with isAuthorizing := false } }
        { c1 with flow := handleServiceSuccess c1.flow a.index }
      else if data.type = "oauth_error" ∧ data.service = a.serviceId then
        let c1 : CompState :=
          { c with
            attempts := (updAttempt c.attempts k (fun x => { x with listenerActive := false }))
            flow := { c.flow with isAuthorizing := false } }
        { c1 with flow :=
            (handleServiceError c1.flow a.index (data.error.getD "Authorization failed")) }
      else c
    else c

/-- The `checkPopup` interval of the attempt at position `k` firing with the
popup closed (OAuthFlow.tsx lines 163-178): clear the interval, unregister the
listener, clear the guard; then read `serviceStatuses[index].status` from the
closure-captured array and call `handleServiceError` only if that captured
status is `'authorizing'`. -/
def checkPopupClosed (c : CompState) (k : Nat) : CompState :=
  match c.attempts.get? k with
  | none => c
  | some a =>
    if a.pollActive then
      let c1 : CompState :=
        { c with
          attempts :=
            (updAttempt c.attempts k
              (fun x => { x with pollActive := false, listenerActive := false }))
          flow := { c.flow with isAuthorizing := false } }
      match a.captured.get? a.index with
      | some s0 =>
        if s0.status = Status.authorizing then
          { c1 with flow :=
              (handleServiceError c1.flow a.index "Authorization window was closed") }
        else c1
      | none => c1
    else c

/-- Auto-start effect taking the `cloudabis` branch (OAuthFlow.tsx lines 79-82). -/
def autoCloudStep (c : CompState) : CompState :=
  { c with flow := handleServiceSuccess c.flow c.flow.currentServiceIndex }

/-- Auto-start effect taking the OAuth branch (OAuthFlow.tsx lines 85-87):
the delayed `handleAuthorize(currentServiceIndex)` call. -/
def autoAuthStep (c : CompState) (popupBlocked : Bool) : CompState :=
  handleAuthorize c c.flow.currentServiceIndex popupBlocked

/-- The Retry button's click handler (OAuthFlow.tsx line 283). -/
def retryClickStep (c : CompState) (i : Nat) : CompState :=
  { c with flow := handleRetry c.flow i }

/-- The Skip button's click handler (OAuthFlow.tsx line 286). -/
def skipClickStep (c : CompState) (i : Nat) : CompState :=
  { c with flow := handleSkip c.flow i }

/-- The Skip Remaining button's click handler (OAuthFlow.tsx line 320). -/
def skipRemainingStep (c : CompState) : CompState :=
  { c with flow := { c.flow with isComplete := true } }

/-- `handleFinish` (OAuthFlow.tsx lines 218-220): calls `onComplete()`; the
model counts the invocations of that callback. -/
def handleFinish (c : CompState) : CompState :=
  { c with onCompleteCalls := c.onCompleteCalls + 1 }

/-- One event of the component. Auto-start events require the effect guard of
line 75; the Retry and Skip buttons exist only on an entry rendered with status
`'error'` (OAuthFlow.tsx lines 281-290); Skip Remaining renders only while not
complete (line 314) and the finish button only when complete (line 298);
messages and popup closure arrive from the environment at any time. -/
inductive Step : CompState → CompState → Prop where
  | autoCloud (c : CompState) (h1 : autoStartCond c.flow = true)
      (h2 : currentId c.flow = some "cloudabis") : Step c (autoCloudStep c)
  | autoAuth (c : CompState) (popupBlocked : Bool) (h1 : autoStartCond c.flow = true)
      (h2 : currentId c.flow ≠ some "cloudabis") : Step c (autoAuthStep c popupBlocked)
  | message (c : CompState) (k : Nat) (data : MessageData) : Step c (dispatchMessage c k data)
  | popupClosed (c : CompState) (k : Nat) : Step c (checkPopupClosed c k)
  | retryClick (c : CompState) (i : Nat) (h : entryStatus c.flow i = some Status.error) :
      Step c (retryClickStep c i)
  | skipClick (c : CompState) (i : Nat) (h : entryStatus c.flow i = some Status.error) :
      Step c (skipClickStep c i)
  | skipRemaining (c : CompState) (h : c.flow.isComplete = false) : Step c (skipRemainingStep c)
  | finish (c : CompState) (h : c.flow.isComplete = true) : Step c (handleFinish c)

/-- Reachability along component events. -/
def Reachable : CompState → CompState → Prop :=
  Relation.ReflTransGen Step

/-- `fullUrl` (OAuthFlow.tsx line 118): plain template-string interpolation,
appending the raw `userId` and `service.id` with no encoding. -/
def fullUrl (oauthUrl userId serviceId : String) : String :=
  oauthUrl ++ "?user_id=" ++ userId ++ "&state=" ++ serviceId

/-- Characters left unescaped by JavaScript's `encodeURIComponent`
(alphanumerics and `- _ . ! ~ * ' ( )`; `Char.ofNat 39` is the single quote). -/
def isUnreservedChar (c : Char) : Bool :=
  c.isAlphanum || c = '-' || c = '_' || c = '.' || c = '!' || c = '~' || c = '*' ||
    c = Char.ofNat 39 || c = '(' || c = ')'

/-- Uppercase hexadecimal digit for `n < 16`. -/
def hexDigit (n : Nat) : Char :=
  if n < 10 then Char.ofNat (48 + n) else Char.ofNat (55 + n)

/-- UTF-8 byte sequence of a character (by code point ranges). -/
def utf8BytesSpec (c : Char) : List Nat :=
  let n := c.toNat
  if n < 128 then [n]
  else if n < 2048 then [192 + n / 64, 128 + n % 64]
  else if n < 65536 then [224 + n / 4096, 128 + (n / 64) % 64, 128 + n % 64]
  else [240 + n / 262144, 128 + (n / 4096) % 64, 128 + (n / 64) % 64, 128 + n % 64]

/-- Percent-encoding of one character: `%XX` for each UTF-8 byte. -/
def percentEncodeChar (c : Char) : String :=
  String.join ((utf8BytesSpec c).map
    (fun b => "%" ++ String.mk [hexDigit (b / 16), hexDigit (b % 16)]))

/-- Transport-safe encoding of a character list, in the sense of
`encodeURIComponent`: unreserved characters kept, others percent-encoded. -/
def encodeListSpec : List Char → String
  | [] => ""
  | c :: rest =>
    (if isUnreservedChar c then String.mk [c] else percentEncodeChar c) ++ encodeListSpec rest

/-- Modelled from the spec: transport-safe (URL) encoding of a query value; the
source performs no such encoding, so this definition follows the spec's words
for comparison with `fullUrl`. -/
def encodeValueSpec (s : String) : String :=
  encodeListSpec s.data

/-- Modelled from the spec: the authorization target URL with the user id and
service id values transport-safe encoded. -/
def fullUrlSpec (oauthUrl userId serviceId : String) : String :=
  oauthUrl ++ "?user_id=" ++ encodeValueSpec userId ++ "&state=" ++ encodeValueSpec serviceId

/-- Modelled from the spec: the resolved count of the Status Projection, which
"includes both `Success` and skipped entries", given the indices the user
skipped; the source state records no skip marker, so the skipped indices are
supplied explicitly. -/
def resolvedCountSpec (skipped : List Nat) (l : List ServiceStatus) : Nat :=
  (List.range l.length).countP
    (fun i =>
      decide (i ∈ skipped) ||
        (match l.get? i with
         | some s => decide (s.status = Status.success)
         | none => false))

/-- Trace for the single-flight counterexample: two OAuth services. -/
def c2s0 : CompState := initComp ["slack", "github"]

/-- Auto-start authorizes service 0 (`slack`); the popup opens. -/
def c2s1 : CompState := autoAuthStep c2s0 false

/-- The popup for `slack` reports `oauth_error`: entry 0 becomes `'error'`,
the guard clears, the cursor stays at 0. -/
def c2s2 : CompState :=
  dispatchMessage c2s1 0 { type := "oauth_error", service := "slack", error := none }

/-- The user clicks Skip on the errored entry 0: cursor moves to 1,
entry 0 keeps status `'error'`. -/
def c2s3 : CompState := skipClickStep c2s2 0

/-- Auto-start authorizes service 1 (`github`): entry 1 is `'authorizing'`,
the guard is set, the `github` popup is open. -/
def c2s4 : CompState := autoAuthStep c2s3 false

/-- The user clicks Retry on the errored entry 0 while the `github` attempt is
still in flight: `handleRetry` clears the guard and moves the cursor to 0,
leaving entry 1 `'authorizing'`. -/
def c2s5 : CompState := retryClickStep c2s4 0

/-- Auto-start fires again (the guard was cleared by the retry) and authorizes
service 0: now entries 0 and 1 are both `'authorizing'`. -/
def c2s6 : CompState := autoAuthStep c2s5 false

/-- Trace for the abandoned-popup bug: one OAuth service. -/
def c4s0 : CompState := initComp ["slack"]

/-- Auto-start authorizes service 0; the attempt captures the pre-update
status array, in which entry 0 is still `'pending'`. -/
def c4s1 : CompState := autoAuthStep c4s0 false

/-- The user closes the popup without completing authorization and the
`checkPopup` interval fires. -/
def c4s2 : CompState := checkPopupClosed c4s1 0

/-- Trace for the completion-flag counterexample: one OAuth service. -/
def c7s0 : CompState := initComp ["slack"]

/-- Auto-start authorizes service 0. -/
def c7s1 : CompState := autoAuthStep c7s0 false

/-- A matching `oauth_success` message resolves the attempt: entry 0 becomes
`'success'` and, 0 being the last index, `isComplete` is set while the cursor
stays at 0. -/
def c7s2 : CompState :=
  dispatchMessage c7s1 0 { type := "oauth_success", service := "slack", error := none }

/-- Trace for the progress counterexample: two OAuth services. -/
def c6s0 : CompState := initComp ["slack", "github"]

/-- Auto-start authorizes service 0. -/
def c6s1 : CompState := autoAuthStep c6s0 false

/-- The popup for `slack` reports `oauth_error`. -/
def c6s2 : CompState :=
  dispatchMessage c6s1 0 { type := "oauth_error", service := "slack", error := none }

/-- The user clicks Skip on the errored entry 0: service 0 is now skipped. -/
def c6s3 : CompState := skipClickStep c6s2 0

/-- Concrete flow state for the retry counterexample: `slack` already
succeeded, cursor on `github`. -/
def c3State : FlowState :=
  { serviceStatuses :=
      [{ id := "slack", name := "Slack", status := Status.success, error := none },
       { id := "github", name := "GitHub", status := Status.pending, error := none }]
    currentServiceIndex := 1
    isComplete := false
    isAuthorizing := false }

/-- Concrete component state with the guard set, for the no-op witness. -/
def c2WitnessState : CompState :=
  { flow :=
      { serviceStatuses := initStatuses ["slack"]
        currentServiceIndex := 0
        isComplete := false
        isAuthorizing := true }
    attempts :=
      [{ index := 0
         serviceId := "slack"
         captured := initStatuses ["slack"]
         listenerActive := true
         pollActive := true }]
    popupsOpened := 1
    onCompleteCalls := 0 }

/-- Concrete component state with the guard set and one live attempt, for the
stale-message witness. -/
def c5State : CompState :=
  { flow :=
      { serviceStatuses := initStatuses ["slack"]
        currentServiceIndex := 0
        isComplete := false
        isAuthorizing := true }
    attempts :=
      [{ index := 0
         serviceId := "slack"
         captured := initStatuses ["slack"]
         listenerActive := true
         pollActive := true }]
    popupsOpened := 1
    onCompleteCalls := 0 }

/-- Mapping with a running index preserves length. -/
theorem mapWithIndex_length {α : Type} (f : Nat → α → α) (l : List α) :
    ∀ k, (mapWithIndex f k l).length = l.length := by
  induction l with
  | nil => intro k; rfl
  | cons s rest ih => intro k; simp [mapWithIndex, ih]

/-- Element lookup after mapping with a running index. -/
theorem mapWithIndex_get? {α : Type} (f : Nat → α → α) (l : List α) :
    ∀ (k j : Nat), (mapWithIndex f k l).get? j = (l.get? j).map (fun s => f (k + j) s) := by
  induction l with
  | nil => intro k j; simp [mapWithIndex]
  | cons s rest ih =>
    intro k j
    cases j with
    | zero => simp [mapWithIndex]
    | succ j =>
      have e : k + (j + 1) = k + 1 + j := by omega
      simp only [mapWithIndex, List.get?, e]
      exact ih (k + 1) j

/-- Lookup characterization of the single-index update. -/
theorem updSvc_get? (l : List ServiceStatus) (index j : Nat) (f : ServiceStatus → ServiceStatus) :
    (updSvc l index f).get? j = (l.get? j).map (fun s => if j = index then f s else s) := by
  unfold updSvc
  rw [mapWithIndex_get?]
  simp [Nat.zero_add]

/-- The single-index update preserves length. -/
theorem updSvc_length (l : List ServiceStatus) (index : Nat) (f : ServiceStatus → ServiceStatus) :
    (updSvc l index f).length = l.length :=
  mapWithIndex_length _ l 0

/-- When every running index is past the target, the conditional map is the identity. -/
theorem mapWithIndex_if_id {α : Type} (g : α → α) (index : Nat) (l : List α) :
    ∀ k, index < k →
      mapWithIndex (fun i s => if i = index then g s else s) k l = l := by
  induction l with
  | nil => intro k _; rfl
  | cons s rest ih =>
    intro k hk
    simp only [mapWithIndex]
    rw [if_neg (by omega), ih (k + 1) (by omega)]

/-- Unfolding of `completedCount` on a cons cell. -/
theorem completedCount_cons (x : ServiceStatus) (xs : List ServiceStatus) :
    completedCount (x :: xs) =
      (if x.status = Status.success then 1 else 0) + completedCount xs := by
  unfold completedCount
  rw [List.filter_cons]
  by_cases hx : x.status = Status.success
  · simp [hx, Nat.add_comm]
  · simp [hx]

/-- Setting a non-success entry to success raises the success count by one
(general running-index form). -/
theorem completedCount_mapWithIndex_success (l : List ServiceStatus) :
    ∀ (k index : Nat) (s0 : ServiceStatus), k ≤ index →
      l.get? (index - k) = some s0 → s0.status ≠ Status.success →
      completedCount
        (mapWithIndex
          (fun i s => if i = index then { s with status := Status.success } else s) k l) =
        completedCount l + 1 := by
  induction l with
  | nil => intro k index s0 _ hx _; simp [List.get?] at hx
  | cons s rest ih =>
    intro k index s0 hk hx hs
    by_cases hke : k = index
    · subst hke
      rw [Nat.sub_self] at hx
      have hss : s = s0 := by
        simpa [List.get?] using hx
      simp only [mapWithIndex, if_true]
      rw [mapWithIndex_if_id _ k rest (k + 1) (by omega),
        completedCount_cons, completedCount_cons]
      have h1 : ({ s with status := Status.success } : ServiceStatus).status = Status.success := rfl
      have h2 : ¬ s.status = Status.success := by
        rw [hss]; exact hs
      rw [if_pos h1, if_neg h2]
      omega
    · have hk1 : k + 1 ≤ index := by omega
      have hx' : rest.get? (index - (k + 1)) = some s0 := by
        have e : index - k = (index - (k + 1)) + 1 := by omega
        rw [e] at hx
        simpa [List.get?] using hx
      simp only [mapWithIndex, if_neg hke]
      rw [completedCount_cons, completedCount_cons, ih (k + 1) index s0 hk1 hx' hs]
      omega

/-- Setting a non-success entry to success raises `completedCount` by one. -/
theorem completedCount_updSvc_success (l : List ServiceStatus) (i : Nat) (s0 : ServiceStatus)
    (hx : l.get? i = some s0) (hs : s0.status ≠ Status.success) :
    completedCount (updSvc l i (fun s => { s with status := Status.success })) =
      completedCount l + 1 := by
  unfold updSvc
  exact completedCount_mapWithIndex_success l 0 i s0 (Nat.zero_le i) (by simpa using hx) hs

/-- `handleSkip` never touches the status array. -/
theorem handleSkip_statuses (f : FlowState) (i : Nat) :
    (handleSkip f i).serviceStatuses = f.serviceStatuses := by
  unfold handleSkip
  split <;> rfl

/-- Status array produced by `handleServiceSuccess`. -/
theorem handleServiceSuccess_statuses (f : FlowState) (i : Nat) :
    (handleServiceSuccess f i).serviceStatuses =
      updSvc f.serviceStatuses i (fun s => { s with status := Status.success }) := by
  unfold handleServiceSuccess
  split <;> rfl

/-- Cursor produced by `handleServiceSuccess`: advanced only when `index` is
not the last position. -/
theorem handleServiceSuccess_cursor (f : FlowState) (i : Nat) :
    (handleServiceSuccess f i).currentServiceIndex =
      (if i + 1 < f.serviceStatuses.length then i + 1 else f.currentServiceIndex) := by
  by_cases h : i + 1 < f.serviceStatuses.length <;> simp [handleServiceSuccess, h]

/-- Completion flag produced by `handleServiceSuccess`: set only at the last
position. -/
theorem handleServiceSuccess_isComplete (f : FlowState) (i : Nat) :
    (handleServiceSuccess f i).isComplete =
      (if i + 1 < f.serviceStatuses.length then f.isComplete else true) := by
  by_cases h : i + 1 < f.serviceStatuses.length <;> simp [handleServiceSuccess, h]

/-- Cursor produced by `handleSkip`. -/
theorem handleSkip_cursor (f : FlowState) (i : Nat) :
    (handleSkip f i).currentServiceIndex =
      (if i + 1 < f.serviceStatuses.length then i + 1 else f.currentServiceIndex) := by
  by_cases h : i + 1 < f.serviceStatuses.length <;> simp [handleSkip, h]

/-- Completion flag produced by `handleSkip`. -/
theorem handleSkip_isComplete (f : FlowState) (i : Nat) :
    (handleSkip f i).isComplete =
      (if i + 1 < f.serviceStatuses.length then f.isComplete else true) := by
  by_cases h : i + 1 < f.serviceStatuses.length <;> simp [handleSkip, h]

/-- Encoding a list of unreserved characters is the identity. -/
theorem encodeListSpec_unreserved (l : List Char) (h : l.all isUnreservedChar = true) :
    encodeListSpec l = String.mk l := by
  induction l with
  | nil => decide
  | cons c rest ih =>
    simp only [List.all_cons, Bool.and_eq_true] at h
    simp only [encodeListSpec, h.1, if_true]
    rw [ih h.2]
    rfl

/-- C1 (amended): when a success or skip resolves the entry at an index `i`
with `i + 1 ≥ length`, the `isComplete` flag is set; `handleFinish` invokes the
`onComplete()` callback exactly once per click of the finish button, which is
rendered only while `isComplete` holds. -/
theorem completion_flag_and_finish (f : FlowState) (i : Nat) (c : CompState)
    (h : ¬ (i + 1 < f.serviceStatuses.length)) :
    (handleServiceSuccess f i).isComplete = true ∧
    (handleSkip f i).isComplete = true ∧
    (handleFinish c).onCompleteCalls = c.onCompleteCalls + 1 := by
  refine ⟨?_, ?_, rfl⟩
  · rw [handleServiceSuccess_isComplete, if_neg h]
  · rw [handleSkip_isComplete, if_neg h]

/-- C1 (witness): the completion behavior instantiated on a one-service list. -/
theorem completion_flag_and_finish_witness :
    (handleServiceSuccess (initComp ["slack"]).flow 0).isComplete = true ∧
    (handleSkip (initComp ["slack"]).flow 0).isComplete = true ∧
    (handleFinish (initComp ["slack"])).onCompleteCalls =
      (initComp ["slack"]).onCompleteCalls + 1 :=
  completion_flag_and_finish (initComp ["slack"]).flow 0 (initComp ["slack"]) (by decide)

/-- C1 (counterexample): starting the flow with the empty service list does not
complete it: after initialization `isComplete` is false, the auto-start guard
of line 75 is false (so no attempt and no auto transition ever fires), nothing
is live, and `onComplete()` has not been called. -/
theorem empty_list_not_completed :
    (initComp ([] : List String)).flow.isComplete = false ∧
    autoStartCond (initComp ([] : List String)).flow = false ∧
    (initComp ([] : List String)).attempts = [] ∧
    (initComp ([] : List String)).onCompleteCalls = 0 :=
  ⟨rfl, rfl, rfl, rfl⟩

/-- C2 (amended): while the in-flight guard `isAuthorizing` is set,
`handleAuthorize` leaves the whole component state unchanged. -/
theorem authorize_guard_noop (c : CompState) (i : Nat) (b : Bool)
    (h : c.flow.isAuthorizing = true) :
    handleAuthorize c i b = c := by
  unfold handleAuthorize
  rw [h]
  rfl

/-- C2 (witness): the guard no-op instantiated on a concrete in-flight state. -/
theorem authorize_guard_noop_witness :
    handleAuthorize c2WitnessState 0 false = c2WitnessState ∧
    c2WitnessState.flow.isAuthorizing = true :=
  ⟨authorize_guard_noop c2WitnessState 0 false rfl, rfl⟩

/-- C2 (counterexample): a reachable state with two entries simultaneously
`'authorizing'`: authorize `slack`, receive `oauth_error`, skip it, let the
flow authorize `github`, then retry `slack` while the `github` attempt is
still in flight — `handleRetry` clears the guard, so the auto-start effect
authorizes `slack` again. -/
theorem two_authorizing_reachable :
    Reachable c2s0 c2s6 ∧ countAuthorizing c2s6.flow.serviceStatuses = 2 := by
  refine ⟨?_, rfl⟩
  exact Relation.ReflTransGen.head (Step.autoAuth c2s0 false (by decide) (by decide))
    (Relation.ReflTransGen.head
      (Step.message c2s1 0 { type := "oauth_error", service := "slack", error := none })
      (Relation.ReflTransGen.head (Step.skipClick c2s2 0 (by decide))
        (Relation.ReflTransGen.head (Step.autoAuth c2s3 false (by decide) (by decide))
          (Relation.ReflTransGen.head (Step.retryClick c2s4 0 (by decide))
            (Relation.ReflTransGen.single (Step.autoAuth c2s5 false (by decide) (by decide)))))))

/-- C3 (amended): `handleRetry` is unconditional: whatever the entry's current
status, it resets the entry at `index` to `'pending'` with no error message,
clears the in-flight guard, and sets the cursor to `index`. -/
theorem handleRetry_resets (f : FlowState) (i : Nat) :
    ((handleRetry f i).serviceStatuses.get? i).map (fun s => (s.status, s.error)) =
      (f.serviceStatuses.get? i).map (fun _ => (Status.pending, (none : Option String))) ∧
    (handleRetry f i).currentServiceIndex = i ∧
    (handleRetry f i).isAuthorizing = false := by
  refine ⟨?_, rfl, rfl⟩
  unfold handleRetry
  rw [updSvc_get?]
  cases f.serviceStatuses.get? i <;> simp

/-- C3 (counterexample): `handleRetry` on an entry whose status is `'success'`
(not `'error'`) is not a no-op: it turns the status into `'pending'` and moves
the cursor from 1 to 0. -/
theorem retry_not_noop_off_error :
    entryStatus c3State 0 = some Status.success ∧
    c3State.currentServiceIndex = 1 ∧
    entryStatus (handleRetry c3State 0) 0 = some Status.pending ∧
    (handleRetry c3State 0).currentServiceIndex = 0 :=
  ⟨rfl, rfl, rfl, rfl⟩

/-- C4 (code bug): in a reachable trace where the popup is closed before any
completion message, the `checkPopup` poll fires first but does not resolve the
attempt: the closure-captured status at index 0 is `'pending'` (captured before
the `'authorizing'` update), so the `currentStatus === 'authorizing'` check of
line 173 fails and no error is recorded — the entry stays `'authorizing'` with
no error message, with only the guard cleared. -/
theorem abandoned_popup_stays_authorizing :
    Reachable c4s0 c4s2 ∧
    entryStatus c4s2.flow 0 = some Status.authorizing ∧
    (c4s2.flow.serviceStatuses.get? 0).map (fun s => s.error) = some none ∧
    c4s2.flow.isAuthorizing = false := by
  refine ⟨?_, rfl, rfl, rfl⟩
  exact Relation.ReflTransGen.head (Step.autoAuth c4s0 false (by decide) (by decide))
    (Relation.ReflTransGen.single (Step.popupClosed c4s1 0))

/-- C5 (confirmed): a message whose `service` field differs from the attempt's
service id, or whose `type` is neither `'oauth_success'` nor `'oauth_error'`,
leaves the component state — in particular every service's status — unchanged. -/
theorem mismatched_message_ignored (c : CompState) (k : Nat) (a : AttemptCtx)
    (data : MessageData) (ha : c.attempts.get? k = some a)
    (h : data.service ≠ a.serviceId ∨
      (data.type ≠ "oauth_success" ∧ data.type ≠ "oauth_error")) :
    dispatchMessage c k data = c := by
  unfold dispatchMessage
  rw [ha]
  dsimp only
  split_ifs with hact h1 h2
  · cases h with
    | inl hsv => exact absurd h1.2 hsv
    | inr hty => exact absurd h1.1 hty.1
  · cases h with
    | inl hsv => exact absurd h2.2 hsv
    | inr hty => exact absurd h2.1 hty.2
  · rfl
  · rfl

/-- C5 (witness): an `oauth_success` message for `github` while the attempt is
for `slack` changes nothing. -/
theorem mismatched_message_ignored_witness :
    dispatchMessage c5State 0
      { type := "oauth_success", service := "github", error := none } = c5State :=
  mismatched_message_ignored c5State 0
    { index := 0
      serviceId := "slack"
      captured := initStatuses ["slack"]
      listenerActive := true
      pollActive := true }
    { type := "oauth_success", service := "github", error := none }
    rfl (Or.inl (by decide))

/-- C6 (amended): the progress numerator counts only entries with status
`'success'`: a skip changes neither the success count nor the derived progress
value, while marking a non-success entry `'success'` raises the count by one. -/
theorem progress_counts_success_only (f : FlowState) (i : Nat) (s0 : ServiceStatus)
    (hx : f.serviceStatuses.get? i = some s0) (hs : s0.status ≠ Status.success) :
    completedCount (handleSkip f i).serviceStatuses = completedCount f.serviceStatuses ∧
    progress (handleSkip f i) = progress f ∧
    completedCount (handleServiceSuccess f i).serviceStatuses =
      completedCount f.serviceStatuses + 1 := by
  refine ⟨?_, ?_, ?_⟩
  · rw [handleSkip_statuses]
  · unfold progress
    rw [handleSkip_statuses]
  · rw [handleServiceSuccess_statuses]
    exact completedCount_updSvc_success f.serviceStatuses i s0 hx hs

/-- C6 (witness): the counting behavior instantiated on two pending services. -/
theorem progress_counts_success_only_witness :
    completedCount (handleSkip (initComp ["slack", "github"]).flow 0).serviceStatuses =
      completedCount (initComp ["slack", "github"]).flow.serviceStatuses ∧
    progress (handleSkip (initComp ["slack", "github"]).flow 0) =
      progress (initComp ["slack", "github"]).flow ∧
    completedCount
        (handleServiceSuccess (initComp ["slack", "github"]).flow 0).serviceStatuses =
      completedCount (initComp ["slack", "github"]).flow.serviceStatuses + 1 :=
  progress_counts_success_only (initComp ["slack", "github"]).flow 0
    { id := "slack", name := "Slack", status := Status.pending, error := none }
    rfl (by decide)

/-- C6 (counterexample): in a reachable trace where service 0 errored and was
skipped, the code's resolved count is 0 and its progress is 0, while the
spec's resolved count (success plus skipped) is 1 — skipping does not increase
the reported count. -/
theorem skipped_not_counted :
    Reachable c6s0 c6s3 ∧
    completedCount c6s3.flow.serviceStatuses = 0 ∧
    resolvedCountSpec [0] c6s3.flow.serviceStatuses = 1 ∧
    progress c6s3.flow = 0 := by
  refine ⟨?_, rfl, rfl, ?_⟩
  · exact Relation.ReflTransGen.head (Step.autoAuth c6s0 false (by decide) (by decide))
      (Relation.ReflTransGen.head
        (Step.message c6s1 0 { type := "oauth_error", service := "slack", error := none })
        (Relation.ReflTransGen.single (Step.skipClick c6s2 0 (by decide))))
  · unfold progress
    rw [show completedCount c6s3.flow.serviceStatuses = 0 from rfl]
    norm_num

/-- C7 (amended): `isComplete` is stored state, not derived from the cursor: a
success or skip at index `i` advances the cursor to `i + 1` when `i + 1 <
length` and otherwise sets `isComplete` while leaving the cursor where it was
(at the last index), and Skip Remaining sets `isComplete` directly without
moving the cursor. -/
theorem isComplete_stored_not_derived (f : FlowState) (i : Nat) (c : CompState) :
    (handleServiceSuccess f i).currentServiceIndex =
      (if i + 1 < f.serviceStatuses.length then i + 1 else f.currentServiceIndex) ∧
    (handleServiceSuccess f i).isComplete =
      (if i + 1 < f.serviceStatuses.length then f.isComplete else true) ∧
    (handleSkip f i).currentServiceIndex =
      (if i + 1 < f.serviceStatuses.length then i + 1 else f.currentServiceIndex) ∧
    (handleSkip f i).isComplete =
      (if i + 1 < f.serviceStatuses.length then f.isComplete else true) ∧
    (skipRemainingStep c).flow.isComplete = true ∧
    (skipRemainingStep c).flow.currentServiceIndex = c.flow.currentServiceIndex :=
  ⟨handleServiceSuccess_cursor f i, handleServiceSuccess_isComplete f i,
    handleSkip_cursor f i, handleSkip_isComplete f i, rfl, rfl⟩

/-- C7 (counterexample): a reachable completed state in which the cursor has
not advanced past the last entry: after the single service succeeds,
`isComplete` is true while the cursor equals the last index 0, so
`isComplete = cursor > lastIndex` fails. -/
theorem completed_state_cursor_at_end :
    Reachable c7s0 c7s2 ∧
    c7s2.flow.isComplete = true ∧
    c7s2.flow.currentServiceIndex = 0 ∧
    c7s2.flow.serviceStatuses.length - 1 = 0 ∧
    ¬ (c7s2.flow.currentServiceIndex > c7s2.flow.serviceStatuses.length - 1) := by
  refine ⟨?_, rfl, rfl, rfl, by decide⟩
  exact Relation.ReflTransGen.head (Step.autoAuth c7s0 false (by decide) (by decide))
    (Relation.ReflTransGen.single
      (Step.message c7s1 0 { type := "oauth_success", service := "slack", error := none }))

/-- C8 (confirmed): when the cursor reaches the `cloudabis` entry — the one
service requiring no external authorization — the auto-start effect resolves
it immediately to `'success'` without opening a popup or registering an
attempt, and the entry participates in sequencing (cursor advance or
completion) and in the progress count exactly like any other entry. -/
theorem cloudabis_immediate_success (c : CompState) (s0 : ServiceStatus)
    (h1 : autoStartCond c.flow = true)
    (h2 : currentId c.flow = some "cloudabis")
    (hx : c.flow.serviceStatuses.get? c.flow.currentServiceIndex = some s0)
    (hs : s0.status ≠ Status.success) :
    entryStatus (autoCloudStep c).flow c.flow.currentServiceIndex = some Status.success ∧
    (autoCloudStep c).popupsOpened = c.popupsOpened ∧
    (autoCloudStep c).attempts = c.attempts ∧
    (autoCloudStep c).flow.currentServiceIndex =
      (if c.flow.currentServiceIndex + 1 < c.flow.serviceStatuses.length then
        c.flow.currentServiceIndex + 1 else c.flow.currentServiceIndex) ∧
    (autoCloudStep c).flow.isComplete =
      (if c.flow.currentServiceIndex + 1 < c.flow.serviceStatuses.length then
        c.flow.isComplete else true) ∧
    completedCount (autoCloudStep c).flow.serviceStatuses =
      completedCount c.flow.serviceStatuses + 1 := by
  refine ⟨?_, rfl, rfl, ?_, ?_, ?_⟩
  · unfold entryStatus autoCloudStep
    dsimp only
    rw [handleServiceSuccess_statuses, updSvc_get?, hx]
    simp
  · exact handleServiceSuccess_cursor c.flow c.flow.currentServiceIndex
  · exact handleServiceSuccess_isComplete c.flow c.flow.currentServiceIndex
  · unfold autoCloudStep
    dsimp only
    rw [handleServiceSuccess_statuses]
    exact completedCount_updSvc_success c.flow.serviceStatuses
      c.flow.currentServiceIndex s0 hx hs

/-- C8 (witness): the `cloudabis` branch instantiated on the list
`[cloudabis, slack]` with the cursor at 0. -/
theorem cloudabis_immediate_success_witness :
    entryStatus (autoCloudStep (initComp ["cloudabis", "slack"])).flow
        (initComp ["cloudabis", "slack"]).flow.currentServiceIndex = some Status.success ∧
    (autoCloudStep (initComp ["cloudabis", "slack"])).popupsOpened =
      (initComp ["cloudabis", "slack"]).popupsOpened ∧
    (autoCloudStep (initComp ["cloudabis", "slack"])).attempts =
      (initComp ["cloudabis", "slack"]).attempts ∧
    (autoCloudStep (initComp ["cloudabis", "slack"])).flow.currentServiceIndex =
      (if (initComp ["cloudabis", "slack"]).flow.currentServiceIndex + 1 <
          (initComp ["cloudabis", "slack"]).flow.serviceStatuses.length then
        (initComp ["cloudabis", "slack"]).flow.currentServiceIndex + 1
      else (initComp ["cloudabis", "slack"]).flow.currentServiceIndex) ∧
    (autoCloudStep (initComp ["cloudabis", "slack"])).flow.isComplete =
      (if (initComp ["cloudabis", "slack"]).flow.currentServiceIndex + 1 <
          (initComp ["cloudabis", "slack"]).flow.serviceStatuses.length then
        (initComp ["cloudabis", "slack"]).flow.isComplete
      else true) ∧
    completedCount (autoCloudStep (initComp ["cloudabis", "slack"])).flow.serviceStatuses =
      completedCount (initComp ["cloudabis", "slack"]).flow.serviceStatuses + 1 :=
  cloudabis_immediate_success (initComp ["cloudabis", "slack"])
    { id := "cloudabis", name := "CloudABIS", status := Status.pending, error := none }
    (by decide) (by decide) rfl (by decide)

/-- C9 (amended): the opened URL is the base URL with
`?user_id=<id>&state=<serviceId>` appended using the raw values; whenever the
user id and service id consist only of URL-unreserved characters, this
coincides with the transport-safe encoded form. -/
theorem fullUrl_matches_encoded_on_safe_values (base uid sid : String)
    (h1 : uid.data.all isUnreservedChar = true)
    (h2 : sid.data.all isUnreservedChar = true) :
    fullUrl base uid sid = fullUrlSpec base uid sid := by
  unfold fullUrl fullUrlSpec encodeValueSpec
  rw [encodeListSpec_unreserved uid.data h1, encodeListSpec_unreserved sid.data h2]

/-- C9 (witness): agreement on a URL-safe user id and service id. -/
theorem fullUrl_matches_encoded_witness :
    fullUrl (API_URL ++ "/auth/slack/login") "user123" "slack" =
      fullUrlSpec (API_URL ++ "/auth/slack/login") "user123" "slack" :=
  fullUrl_matches_encoded_on_safe_values (API_URL ++ "/auth/slack/login") "user123" "slack"
    (by decide) (by decide)

/-- C9 (counterexample): for the configured `slack` base URL and the user id
`"a b"`, the URL the code builds differs from the transport-safe encoded one
(the space is not encoded as `%20`). -/
theorem fullUrl_not_encoded :
    SERVICE_OAUTH_URLS "slack" = some (API_URL ++ "/auth/slack/login") ∧
    fullUrl (API_URL ++ "/auth/slack/login") "a b" "slack" ≠
      fullUrlSpec (API_URL ++ "/auth/slack/login") "a b" "slack" :=
  ⟨by decide, by decide⟩

/-- C10 (confirmed): each of the four per-service updates — marking an entry
authorizing, success, or error, and resetting it on retry — leaves every entry
at an index other than the targeted one unchanged (id, name, status and error
alike). -/
theorem status_update_frame (l : List ServiceStatus) (index j : Nat) (err : String)
    (h : j ≠ index) :
    (updSvc l index (fun s => { s with status := Status.authorizing })).get? j = l.get? j ∧
    (updSvc l index (fun s => { s with status := Status.success })).get? j = l.get? j ∧
    (updSvc l index
        (fun s => { s with status := Status.error, error := some err })).get? j = l.get? j ∧
    (updSvc l index
        (fun s => { s with status := Status.pending, error := none })).get? j = l.get? j := by
  refine ⟨?_, ?_, ?_, ?_⟩ <;>
    · rw [updSvc_get?]
      cases l.get? j <;> simp [h]

/-- C10 (witness): the frame property instantiated at index 0 and observer 1. -/
theorem status_update_frame_witness :
    (updSvc (initStatuses ["slack", "github"]) 0
        (fun s => { s with status := Status.authorizing })).get? 1 =
      (initStatuses ["slack", "github"]).get? 1 ∧
    (updSvc (initStatuses ["slack", "github"]) 0
        (fun s => { s with status := Status.success })).get? 1 =
      (initStatuses ["slack", "github"]).get? 1 ∧
    (updSvc (initStatuses ["slack", "github"]) 0
        (fun s => { s with status := Status.error, error := some "boom" })).get? 1 =
      (initStatuses ["slack", "github"]).get? 1 ∧
    (updSvc (initStatuses ["slack", "github"]) 0
        (fun s => { s with status := Status.pending, error := none })).get? 1 =
      (initStatuses ["slack", "github"]).get? 1 :=
  status_update_frame (initStatuses ["slack", "github"]) 0 1 "boom" (by decide)

end OAuthFlowModel
